import Mathlib

/-!
Verification of the TSDuck TCP socket base class (`ts::TCPSocket`,
`src/libtsduck/tsTCPSocket.h`) and of the event reporting sink
(`ts::Report`, implementation file of `tsReport.h`) against their
natural-language specification.

The embedding is shallow: the C++ state is a Lean structure, every
member function is a Lean function on that structure, and the side
effects relevant to the specification (subclass hook invocations,
OS-level handle acquisition and release, diagnostics sent to the
reporting sink) are returned explicitly as event and message lists.
-/

set_option autoImplicit false

namespace TsDuck

/-! ## Severity levels and the reporting sink (`ts::Report`) -/

/-- Modelled from the spec: the header `tsReport.h` defining the numeric
severity constants is not under `src/`; only the static-const definition
lines (naming `Fatal`, `Severe`, `Error`, `Warning`, `Info`, `Verbose`,
`Debug`) and `Severity::Header` are.  The spec fixes the ordering
"fatal > error > warning > info > debug" (smaller integer = more severe),
and `Severity::Header` in the source treats every level above `Debug` as
an extra debug level and every level below `Fatal` as invalid, so the
named levels are consecutive integers with `Fatal` smallest and `Debug`
largest. -/
def Severity.Fatal : Int := -5

/-- Severity level `Severe`, between `Fatal` and `Error`. -/
def Severity.Severe : Int := -4

/-- Severity level `Error`. -/
def Severity.Error : Int := -3

/-- Severity level `Warning`. -/
def Severity.Warning : Int := -2

/-- Severity level `Info`. -/
def Severity.Info : Int := -1

/-- Severity level `Verbose`, between `Info` and `Debug`. -/
def Severity.Verbose : Int := 0

/-- Severity level `Debug`, the largest (least severe) named level. -/
def Severity.Debug : Int := 1

/-- Modelled from the spec: `ts::UString` and `UString::Format` are not
under `src/`.  A message is either a literal string or the opaque result
of formatting a format string with integer arguments; `Format` is kept
opaque (a constructor) because the reporting claims only concern which
messages reach the output, never the formatted text itself. -/
inductive UString where
  | lit (s : String)
  | format (fmt : String) (args : List Int)
deriving DecidableEq, Repr

/-- State of a `ts::Report` sink: the maximum-severity threshold
`_max_severity` (constructor argument in the source) together with the
transcript of messages actually handed to the output primitive
`writeLog`, in order of emission. -/
structure Report where
  _max_severity : Int
  written : List (Int × UString)
deriving DecidableEq, Repr

/-- Modelled from the spec: `writeLog` is the pure-virtual output
primitive of the sink (the "print above the threshold" half); it is
modelled as unconditionally appending the message to the transcript. -/
def Report.writeLog (rpt : Report) (severity : Int) (msg : UString) : Report :=
  { rpt with written := rpt.written ++ [(severity, msg)] }

/-- `ts::Report::log(int severity, const UString& msg)`: forward the
message to `writeLog` when `severity <= _max_severity`, otherwise do
nothing. -/
def Report.log (rpt : Report) (severity : Int) (msg : UString) : Report :=
  if severity ≤ rpt._max_severity then rpt.writeLog severity msg else rpt

/-- The two formatted overloads of `ts::Report::log` (with `const UChar*`
and `const UString&` format strings): when `severity <= _max_severity`,
format the message and delegate to the plain `log`; otherwise do
nothing.  Both overloads have the same body, so they share one model. -/
def Report.logFormat (rpt : Report) (severity : Int) (fmt : String) (args : List Int) : Report :=
  if severity ≤ rpt._max_severity then rpt.log severity (UString.format fmt args) else rpt

/-- `ts::Report::setMaxSeverity(int level)`: store the new threshold,
then, when the level is at `Severity::Debug` or beyond, log the message
`"debug level set to %d"` formatted with the level, at that level. -/
def Report.setMaxSeverity (rpt : Report) (level : Int) : Report :=
  let rpt' : Report := { rpt with _max_severity := level }
  if level ≥ Severity.Debug then
    rpt'.logFormat level "debug level set to %d" [level]
  else
    rpt'

/-- `ts::Report::raiseMaxSeverity(int level)`: raise the threshold to
`level` via `setMaxSeverity` only when the current threshold is strictly
below it. -/
def Report.raiseMaxSeverity (rpt : Report) (level : Int) : Report :=
  if rpt._max_severity < level then rpt.setMaxSeverity level else rpt

/-! ## The TCP socket base class (`ts::TCPSocket`) -/

/-- The native socket handle type `TS_SOCKET_T` (a platform integer). -/
abbrev TS_SOCKET_T := Int

/-- The invalid-handle sentinel `TS_SOCKET_T_INVALID`, distinct from
every valid handle value. -/
def TS_SOCKET_T_INVALID : TS_SOCKET_T := -1

/-- State of one `ts::TCPSocket` instance.  `_sock` is the single data
member of the C++ class (the mutex only serializes calls and carries no
specified state).  `reuseSet` and `boundTo` model the kernel-side state
of the socket referred to by `_sock`: whether the "reuse port" option
has been set on it, and the local port it is bound to, if any; both are
needed to state the bind/reuse-port claims and start cleared for a fresh
handle. -/
structure TCPSocket where
  _sock : TS_SOCKET_T
  reuseSet : Bool
  boundTo : Option Nat
deriving DecidableEq, Repr

/-- The constructor `TCPSocket()`: initializes `_sock` to
`TS_SOCKET_T_INVALID`; the kernel-side option state of a not-yet-created
handle is clear. -/
def TCPSocket.new : TCPSocket :=
  { _sock := TS_SOCKET_T_INVALID, reuseSet := false, boundTo := none }

/-- `TCPSocket::isOpen()`: `_sock != TS_SOCKET_T_INVALID`. -/
def TCPSocket.isOpen (s : TCPSocket) : Bool :=
  s._sock != TS_SOCKET_T_INVALID

/-- `TCPSocket::getSocket()`: returns the stored native handle. -/
def TCPSocket.getSocket (s : TCPSocket) : TS_SOCKET_T :=
  s._sock

/-- Observable side effects of a socket operation, in order of
occurrence: OS-level handle acquisition (`osOpen`), OS-level handle
release (`osClose`), and the subclass extension hooks `handleOpened` /
`handleClosed`; the hook events record the value of `this->_sock` at
the moment the hook is invoked. -/
inductive SockEvent where
  | osOpen (h : TS_SOCKET_T)
  | osClose (h : TS_SOCKET_T)
  | hookOpened (sockAtCall : TS_SOCKET_T)
  | hookClosed (sockAtCall : TS_SOCKET_T)
deriving DecidableEq, Repr

/-- Whether an event is an OS-level handle acquisition. -/
def SockEvent.isOsOpen : SockEvent → Bool
  | SockEvent.osOpen _ => true
  | _ => false

/-- Whether an event is an OS-level handle release. -/
def SockEvent.isOsClose : SockEvent → Bool
  | SockEvent.osClose _ => true
  | _ => false

/-- Whether an event is an invocation of the `handleOpened` hook. -/
def SockEvent.isHookOpened : SockEvent → Bool
  | SockEvent.hookOpened _ => true
  | _ => false

/-- Whether an event is an invocation of the `handleClosed` hook. -/
def SockEvent.isHookClosed : SockEvent → Bool
  | SockEvent.hookClosed _ => true
  | _ => false

/-- Result of one socket operation: the boolean success result returned
to the caller, the instance state after the call, the ordered observable
events, and the diagnostics sent to the reporting sink passed to the
call. -/
structure OpResult where
  ok : Bool
  sock : TCPSocket
  events : List SockEvent
  diags : List String
deriving DecidableEq, Repr

/-- Modelled from the spec: the body of `TCPSocket::open` is not under
`src/` (only its declaration).  Per the spec: calling open while already
open is an error (reported, state untouched); otherwise a new OS handle
is requested — the outcome of that request is the parameter `osRes`
(`none` = allocation failure) — and on success the handle is stored,
the state becomes Open, and then the `handleOpened` hook is invoked
before returning; on failure the state remains Closed and a diagnostic
is sent to the reporting sink. -/
def TCPSocket.openSocket (s : TCPSocket) (osRes : Option TS_SOCKET_T) : OpResult :=
  if s.isOpen then
    { ok := false, sock := s, events := [], diags := ["socket already open"] }
  else
    match osRes with
    | none =>
      { ok := false, sock := s, events := [], diags := ["error creating socket"] }
    | some h =>
      let s' : TCPSocket := { s with _sock := h }
      { ok := true
        sock := s'
        events := [SockEvent.osOpen h, SockEvent.hookOpened s'._sock]
        diags := [] }

/-- Modelled from the spec: the body of `TCPSocket::declareOpened` is
not under `src/` (only its private declaration and the `TCPServer`
friend grant).  Per the spec it injects an already-accepted native
handle into the instance and drives it through the same `handleOpened`
notification as a self-initiated open, without any OS-level open call. -/
def TCPSocket.declareOpened (s : TCPSocket) (h : TS_SOCKET_T) : OpResult :=
  let s' : TCPSocket := { s with _sock := h }
  { ok := true
    sock := s'
    events := [SockEvent.hookOpened s'._sock]
    diags := [] }

/-- Modelled from the spec: the body of `TCPSocket::close` is not under
`src/` (only its declaration).  Per the spec: if Open, the
`handleClosed` hook is invoked first (before the handle disappears),
then the OS handle is released — which also drops its kernel-side
binding — and the state is reset to Closed; if already Closed this is a
harmless no-op; in both cases success is returned. -/
def TCPSocket.close (s : TCPSocket) : OpResult :=
  if s.isOpen then
    { ok := true
      sock := { _sock := TS_SOCKET_T_INVALID, reuseSet := false, boundTo := none }
      events := [SockEvent.hookClosed s._sock, SockEvent.osClose s._sock]
      diags := [] }
  else
    { ok := true, sock := s, events := [], diags := [] }

/-- The destructor `~TCPSocket()`: calls `close(NULLREP)`.  The boolean
result and the diagnostics of that close are discarded (NULLREP is the
discard-everything reporting target, and a destructor returns nothing);
only the observable OS/hook events remain. -/
def TCPSocket.destruct (s : TCPSocket) : List SockEvent :=
  (s.close).events

/-- Modelled from the spec: the body of `TCPSocket::reusePort` is not
under `src/` (only its declaration).  Per the spec, option setters apply
the option immediately to the live handle and fail (with a diagnostic)
if the handle is invalid; on an open socket the kernel-side "reuse
port" flag of the handle is set to `active`. -/
def TCPSocket.reusePort (s : TCPSocket) (active : Bool) : OpResult :=
  if s.isOpen then
    { ok := true, sock := { s with reuseSet := active }, events := [], diags := [] }
  else
    { ok := false, sock := s, events := [], diags := ["error setting reuse port"] }

/-- Modelled from the spec: the body of `TCPSocket::bind` is not under
`src/` (only its declaration and contract comment).  The address is
modelled by its port part (`0` = `SocketAddress::AnyPort`); the
environment is `otherBound`, the set of local ports currently bound by
other sockets, and `ephemeral`, the unused port the OS picks for an
`AnyPort` request.  Per the contract: binding fails on an invalid
handle; binding to a specific port already bound by another local socket
fails unless the "reuse port" option has already been set on this
socket; otherwise the socket becomes bound to the requested (or
OS-assigned) port. -/
def TCPSocket.bind (s : TCPSocket) (port : Nat) (otherBound : Nat → Bool)
    (ephemeral : Nat) : OpResult :=
  if ¬ s.isOpen then
    { ok := false, sock := s, events := [], diags := ["error binding socket"] }
  else if port ≠ 0 ∧ otherBound port ∧ ¬ s.reuseSet then
    { ok := false, sock := s, events := [], diags := ["socket bind error: address already in use"] }
  else
    { ok := true
      sock := { s with boundTo := some (if port = 0 then ephemeral else port) }
      events := []
      diags := [] }

/-! ## A world of socket instances (exclusive handle ownership) -/

/-- A world of live `TCPSocket` instances, indexed by an abstract
instance identity: `w i = some s` means instance `i` is alive with state
`s`, `w i = none` means no instance lives at `i`. -/
abbrev World := Nat → Option TCPSocket

/-- The empty world: no instance has been constructed yet. -/
def World.init : World := fun _ => none

/-- One step of the system: each constructor is one operation of the
class applied to one live instance (or a construction/destruction).
The class has no copy construction and no copy assignment (both are
`= delete` in the source), so no step copies the raw handle of one
instance into another; the only steps that install a valid handle,
`openOk` and `declOpened`, install a handle the OS just produced, which
is fresh: the OS never hands out a descriptor that is still open in the
process. -/
inductive WStep : World → World → Prop where
  | construct (w : World) (i : Nat) (hfree : w i = none) :
      WStep w (Function.update w i (some TCPSocket.new))
  | openOk (w : World) (i : Nat) (s : TCPSocket) (h : TS_SOCKET_T)
      (hs : w i = some s) (hclosed : s.isOpen = false)
      (hvalid : h ≠ TS_SOCKET_T_INVALID)
      (hfresh : ∀ j sj, w j = some sj → sj._sock ≠ h) :
      WStep w (Function.update w i (some (s.openSocket (some h)).sock))
  | openFail (w : World) (i : Nat) (s : TCPSocket) (hs : w i = some s) :
      WStep w (Function.update w i (some (s.openSocket none).sock))
  | declOpened (w : World) (i : Nat) (s : TCPSocket) (h : TS_SOCKET_T)
      (hs : w i = some s) (hclosed : s.isOpen = false)
      (hvalid : h ≠ TS_SOCKET_T_INVALID)
      (hfresh : ∀ j sj, w j = some sj → sj._sock ≠ h) :
      WStep w (Function.update w i (some (s.declareOpened h).sock))
  | closeStep (w : World) (i : Nat) (s : TCPSocket) (hs : w i = some s) :
      WStep w (Function.update w i (some (s.close).sock))
  | reuseStep (w : World) (i : Nat) (s : TCPSocket) (b : Bool) (hs : w i = some s) :
      WStep w (Function.update w i (some (s.reusePort b).sock))
  | bindStep (w : World) (i : Nat) (s : TCPSocket) (p : Nat) (ob : Nat → Bool) (e : Nat)
      (hs : w i = some s) :
      WStep w (Function.update w i (some (s.bind p ob e).sock))
  | destroy (w : World) (i : Nat) (s : TCPSocket) (hs : w i = some s) :
      WStep w (Function.update w i none)

/-- A world reachable from the empty world by any sequence of steps. -/
def World.Reachable (w : World) : Prop :=
  Relation.ReflTransGen WStep World.init w

/-- Invariant I2: at most one live instance owns a given valid native
handle value — two distinct live instances never store the same
non-invalid handle. -/
def ExclusiveOwnership (w : World) : Prop :=
  ∀ i j si sj, i ≠ j → w i = some si → w j = some sj →
    si._sock ≠ TS_SOCKET_T_INVALID → si._sock ≠ sj._sock

/-! ## Helper lemmas -/

/-- The socket state resulting from a close always carries the invalid
handle: a close from Open resets it, a close from Closed leaves the
already-invalid handle in place. -/
theorem close_sock_invalid (s : TCPSocket) :
    (s.close).sock._sock = TS_SOCKET_T_INVALID := by
  by_cases hs : s.isOpen
  · simp [TCPSocket.close, hs]
  · have hinv : s._sock = TS_SOCKET_T_INVALID := by
      simpa [TCPSocket.isOpen, bne_eq_false_iff_eq] using hs
    simp [TCPSocket.close, hs, hinv]

/-- A successful open from the Closed state stores the OS-provided
handle and changes nothing else. -/
theorem openSocket_some_sock (s : TCPSocket) (h : TS_SOCKET_T)
    (hclosed : s.isOpen = false) :
    (s.openSocket (some h)).sock = { s with _sock := h } := by
  simp [TCPSocket.openSocket, hclosed]

/-- A failed OS allocation leaves the instance state untouched. -/
theorem openSocket_none_sock (s : TCPSocket) :
    (s.openSocket none).sock = s := by
  by_cases hs : s.isOpen <;> simp [TCPSocket.openSocket, hs]

/-- `reusePort` never changes the stored handle. -/
theorem reusePort_sock_handle (s : TCPSocket) (b : Bool) :
    (s.reusePort b).sock._sock = s._sock := by
  by_cases hs : s.isOpen <;> simp [TCPSocket.reusePort, hs]

/-- `bind` never changes the stored handle. -/
theorem bind_sock_handle (s : TCPSocket) (p : Nat) (ob : Nat → Bool) (e : Nat) :
    (s.bind p ob e).sock._sock = s._sock := by
  unfold TCPSocket.bind
  split
  · rfl
  · split <;> rfl

/-- Destroying a socket that is already Closed releases nothing. -/
theorem destruct_closed (t : TCPSocket) (ht : t.isOpen = false) :
    t.destruct = [] := by
  simp [TCPSocket.destruct, TCPSocket.close, ht]

/-! ## Claim theorems -/

/-- Claim C6: a newly constructed socket is in the Closed state:
immediately after construction its handle equals the invalid sentinel,
`isOpen()` returns false, and `getSocket()` returns the invalid
sentinel. -/
theorem claim_C6_initial_state :
    TCPSocket.new._sock = TS_SOCKET_T_INVALID ∧
    TCPSocket.new.isOpen = false ∧
    TCPSocket.new.getSocket = TS_SOCKET_T_INVALID := by
  refine ⟨rfl, ?_, rfl⟩
  decide

/-- Claim C7: `isOpen()` is a pure query returning true exactly when the
stored handle differs from the invalid sentinel, and `getSocket()`
returns the stored native handle, which equals the invalid sentinel
exactly when the socket is not open. -/
theorem claim_C7_pure_queries (s : TCPSocket) :
    (s.isOpen = true ↔ s._sock ≠ TS_SOCKET_T_INVALID) ∧
    s.getSocket = s._sock ∧
    (s.getSocket = TS_SOCKET_T_INVALID ↔ s.isOpen = false) := by
  refine ⟨?_, rfl, ?_⟩
  · simp [TCPSocket.isOpen]
  · simp [TCPSocket.isOpen, TCPSocket.getSocket, bne_eq_false_iff_eq]

/-- Witness for C7 at a concrete open socket. -/
theorem claim_C7_witness :
    (({ _sock := 5, reuseSet := false, boundTo := none } : TCPSocket).isOpen = true ↔
      ({ _sock := 5, reuseSet := false, boundTo := none } : TCPSocket)._sock ≠ TS_SOCKET_T_INVALID) ∧
    ({ _sock := 5, reuseSet := false, boundTo := none } : TCPSocket).getSocket =
      ({ _sock := 5, reuseSet := false, boundTo := none } : TCPSocket)._sock ∧
    (({ _sock := 5, reuseSet := false, boundTo := none } : TCPSocket).getSocket = TS_SOCKET_T_INVALID ↔
      ({ _sock := 5, reuseSet := false, boundTo := none } : TCPSocket).isOpen = false) :=
  claim_C7_pure_queries { _sock := 5, reuseSet := false, boundTo := none }

/-- Claim C1: `close()` is idempotent: for every socket state, calling
close when the socket is already closed returns success, leaves the
state (in particular the stored handle) unchanged, and has no
observable effect; and a close immediately following any close is such
a no-op. -/
theorem claim_C1_close_idempotent (s : TCPSocket) :
    (s.isOpen = false →
      s.close = { ok := true, sock := s, events := [], diags := [] }) ∧
    (s.close).sock.close =
      { ok := true, sock := (s.close).sock, events := [], diags := [] } := by
  have hclosed : ∀ t : TCPSocket, t.isOpen = false →
      t.close = { ok := true, sock := t, events := [], diags := [] } := by
    intro t ht
    simp [TCPSocket.close, ht]
  refine ⟨hclosed s, ?_⟩
  apply hclosed
  simp [TCPSocket.isOpen, close_sock_invalid]

/-- Witness for C1: closing a freshly constructed (closed) socket is a
successful no-op. -/
theorem claim_C1_witness :
    TCPSocket.new.isOpen = false ∧
    TCPSocket.new.close =
      { ok := true, sock := TCPSocket.new, events := [], diags := [] } :=
  ⟨by decide, (claim_C1_close_idempotent TCPSocket.new).1 (by decide)⟩

/-- Claim C5: `open()` is not idempotent: calling it while the socket is
already open fails with a diagnostic and leaves the state unchanged;
and whenever an open from the Closed state fails, the state remains
Closed (unchanged) and a diagnostic is sent to the reporting sink. -/
theorem claim_C5_open_failure (s : TCPSocket) (osRes : Option TS_SOCKET_T) :
    (s.isOpen = true →
      (s.openSocket osRes).ok = false ∧
      (s.openSocket osRes).sock = s ∧
      (s.openSocket osRes).diags ≠ []) ∧
    (s.isOpen = false → (s.openSocket osRes).ok = false →
      (s.openSocket osRes).sock.isOpen = false ∧
      (s.openSocket osRes).sock = s ∧
      (s.openSocket osRes).diags ≠ []) := by
  constructor
  · intro hopen
    simp [TCPSocket.openSocket, hopen]
  · intro hclosed hfail
    cases osRes with
    | none =>
      have hsock : (s.openSocket none).sock = s := openSocket_none_sock s
      refine ⟨by rw [hsock]; exact hclosed, hsock, ?_⟩
      simp [TCPSocket.openSocket, hclosed]
    | some h => simp [TCPSocket.openSocket, hclosed] at hfail

/-- Witness for C5: opening an already-open socket fails and leaves it
untouched. -/
theorem claim_C5_witness :
    ({ _sock := 5, reuseSet := false, boundTo := none } : TCPSocket).isOpen = true ∧
    (({ _sock := 5, reuseSet := false, boundTo := none } : TCPSocket).openSocket (some 7)).ok = false ∧
    (({ _sock := 5, reuseSet := false, boundTo := none } : TCPSocket).openSocket (some 7)).sock =
      { _sock := 5, reuseSet := false, boundTo := none } ∧
    (({ _sock := 5, reuseSet := false, boundTo := none } : TCPSocket).openSocket (some 7)).diags ≠ [] :=
  ⟨by decide,
   (claim_C5_open_failure { _sock := 5, reuseSet := false, boundTo := none } (some 7)).1 (by decide)⟩

/-- Claim C4: destroying a socket that is still Open performs exactly
one close-equivalent release of the handle (the destructor calls
`close(NULLREP)`, whose result and diagnostics are discarded), and a
destructor running after an explicit close releases nothing, so the
handle is released exactly once overall. -/
theorem claim_C4_destructor_release (s : TCPSocket) (hopen : s.isOpen = true) :
    s.destruct = [SockEvent.hookClosed s._sock, SockEvent.osClose s._sock] ∧
    (s.destruct).countP SockEvent.isOsClose = 1 ∧
    ((s.close).sock.destruct) = [] := by
  have hev : s.destruct = [SockEvent.hookClosed s._sock, SockEvent.osClose s._sock] := by
    simp [TCPSocket.destruct, TCPSocket.close, hopen]
  refine ⟨hev, ?_, ?_⟩
  · rw [hev]
    simp [List.countP_cons, SockEvent.isOsClose]
  · exact destruct_closed (s.close).sock (by simp [TCPSocket.isOpen, close_sock_invalid])

/-- Witness for C4 at a concrete open socket. -/
theorem claim_C4_witness :
    ({ _sock := 5, reuseSet := false, boundTo := none } : TCPSocket).isOpen = true ∧
    ({ _sock := 5, reuseSet := false, boundTo := none } : TCPSocket).destruct =
      [SockEvent.hookClosed 5, SockEvent.osClose 5] ∧
    (({ _sock := 5, reuseSet := false, boundTo := none } : TCPSocket).destruct).countP SockEvent.isOsClose = 1 ∧
    ((({ _sock := 5, reuseSet := false, boundTo := none } : TCPSocket).close).sock.destruct) = [] :=
  ⟨by decide,
   claim_C4_destructor_release { _sock := 5, reuseSet := false, boundTo := none } (by decide)⟩

/-- Claim C2: a successful open stores the new handle and then invokes
the `handleOpened` hook exactly once, with the handle already installed
(the hook observes `_sock = h`), before returning; `declareOpened`
drives the injected handle through the same `handleOpened` notification
without any OS-level open; and a close from the Open state invokes the
`handleClosed` hook exactly once, before the handle is released (the
hook observes the still-installed handle, and the OS release follows
it). -/
theorem claim_C2_hook_cooperation (s t : TCPSocket) (h : TS_SOCKET_T)
    (hclosed : s.isOpen = false) (hvalid : h ≠ TS_SOCKET_T_INVALID)
    (hopen : t.isOpen = true) :
    ((s.openSocket (some h)).ok = true ∧
     (s.openSocket (some h)).sock._sock = h ∧
     (s.openSocket (some h)).sock.isOpen = true ∧
     (s.openSocket (some h)).events = [SockEvent.osOpen h, SockEvent.hookOpened h] ∧
     ((s.openSocket (some h)).events).countP SockEvent.isHookOpened = 1) ∧
    ((s.declareOpened h).sock._sock = h ∧
     (s.declareOpened h).events = [SockEvent.hookOpened h] ∧
     ((s.declareOpened h).events).countP SockEvent.isOsOpen = 0 ∧
     ((s.declareOpened h).events).countP SockEvent.isHookOpened = 1) ∧
    ((t.close).events = [SockEvent.hookClosed t._sock, SockEvent.osClose t._sock] ∧
     ((t.close).events).countP SockEvent.isHookClosed = 1 ∧
     (t.close).sock._sock = TS_SOCKET_T_INVALID) := by
  refine ⟨⟨?_, ?_, ?_, ?_, ?_⟩, ⟨?_, ?_, ?_, ?_⟩, ⟨?_, ?_, ?_⟩⟩
  · simp [TCPSocket.openSocket, hclosed]
  · simp [TCPSocket.openSocket, hclosed]
  · have hs : s._sock = TS_SOCKET_T_INVALID := by
      simpa [TCPSocket.isOpen, bne_eq_false_iff_eq] using hclosed
    simp [TCPSocket.openSocket, TCPSocket.isOpen, hs, hvalid]
  · simp [TCPSocket.openSocket, hclosed]
  · simp [TCPSocket.openSocket, hclosed, List.countP_cons, SockEvent.isHookOpened]
  · simp [TCPSocket.declareOpened]
  · simp [TCPSocket.declareOpened]
  · simp [TCPSocket.declareOpened, List.countP_cons, SockEvent.isOsOpen]
  · simp [TCPSocket.declareOpened, List.countP_cons, SockEvent.isHookOpened]
  · simp [TCPSocket.close, hopen]
  · simp [TCPSocket.close, hopen, List.countP_cons, SockEvent.isHookClosed]
  · exact close_sock_invalid t

/-- Witness for C2: a fresh socket opened with OS handle 7, and an open
socket with handle 5 closed. -/
theorem claim_C2_witness :
    TCPSocket.new.isOpen = false ∧
    ({ _sock := 5, reuseSet := false, boundTo := none } : TCPSocket).isOpen = true ∧
    (TCPSocket.new.openSocket (some 7)).ok = true ∧
    (TCPSocket.new.openSocket (some 7)).events =
      [SockEvent.osOpen 7, SockEvent.hookOpened 7] ∧
    (TCPSocket.new.declareOpened 7).events = [SockEvent.hookOpened 7] ∧
    (({ _sock := 5, reuseSet := false, boundTo := none } : TCPSocket).close).events =
      [SockEvent.hookClosed 5, SockEvent.osClose 5] := by
  have hmain := claim_C2_hook_cooperation TCPSocket.new
    { _sock := 5, reuseSet := false, boundTo := none } 7
    (by decide) (by decide) (by decide)
  exact ⟨by decide, by decide, hmain.1.1, hmain.1.2.2.2.1, hmain.2.1.2.1, hmain.2.2.1⟩

/-- Claim C3: on an open socket with the "reuse port" option not set,
binding to a specific port already bound by another local socket fails
and leaves the socket unchanged; setting `reusePort(true)` before the
bind makes the same bind succeed; and setting `reusePort(true)` after
the failed bind does not retroactively bind the socket — it stays
unbound until the bind is re-attempted, which then succeeds. -/
theorem claim_C3_reuse_port_before_bind (s : TCPSocket) (p : Nat) (ob : Nat → Bool)
    (e : Nat) (hopen : s.isOpen = true) (hp : p ≠ 0) (hb : ob p = true)
    (hnr : s.reuseSet = false) (hnb : s.boundTo = none) :
    ((s.bind p ob e).ok = false ∧ (s.bind p ob e).sock = s) ∧
    (((s.reusePort true).sock.bind p ob e).ok = true ∧
     ((s.reusePort true).sock.bind p ob e).sock.boundTo = some p) ∧
    ((((s.bind p ob e).sock.reusePort true).sock.boundTo = none) ∧
     ((((s.bind p ob e).sock.reusePort true).sock.bind p ob e).ok = true)) := by
  have hfail : s.bind p ob e =
      { ok := false, sock := s, events := [],
        diags := ["socket bind error: address already in use"] } := by
    simp [TCPSocket.bind, hopen, hp, hb, hnr]
  have hreuse : (s.reusePort true).sock = { s with reuseSet := true } := by
    simp [TCPSocket.reusePort, hopen]
  have hsucc : ∀ t : TCPSocket, t.isOpen = true → t.reuseSet = true →
      (t.bind p ob e).ok = true ∧ (t.bind p ob e).sock.boundTo = some p := by
    intro t hto htr
    constructor <;> simp [TCPSocket.bind, hto, htr, hp]
  refine ⟨⟨by rw [hfail], by rw [hfail]⟩, ?_, ?_⟩
  · exact hsucc { s with reuseSet := true }
      (by simpa [TCPSocket.isOpen] using hopen) rfl |>.imp
      (by rw [hreuse]; exact id) (by rw [hreuse]; exact id)
  · rw [hfail]
    refine ⟨?_, ?_⟩
    · rw [hreuse]
      exact hnb
    · rw [hreuse]
      exact (hsucc { s with reuseSet := true }
        (by simpa [TCPSocket.isOpen] using hopen) rfl).1

/-- Witness for C3: socket with handle 5, port 80 bound elsewhere. -/
theorem claim_C3_witness :
    (({ _sock := 5, reuseSet := false, boundTo := none } : TCPSocket).bind 80
        (fun n => n == 80) 1234).ok = false ∧
    ((({ _sock := 5, reuseSet := false, boundTo := none } : TCPSocket).reusePort true).sock.bind 80
        (fun n => n == 80) 1234).ok = true ∧
    ((({ _sock := 5, reuseSet := false, boundTo := none } : TCPSocket).bind 80
        (fun n => n == 80) 1234).sock.reusePort true).sock.boundTo = none := by
  have hmain := claim_C3_reuse_port_before_bind
    { _sock := 5, reuseSet := false, boundTo := none } 80 (fun n => n == 80) 1234
    (by decide) (by decide) (by decide) (by decide) (by decide)
  exact ⟨hmain.1.1, hmain.2.1.1, hmain.2.2.1⟩

/-- Every step of the system preserves exclusive handle ownership:
the only steps that install a valid handle install one that is fresh,
the remaining steps either keep a handle, invalidate it, or remove an
instance, and no step copies a handle between instances. -/
theorem exclusive_ownership_step {w w' : World} (hstep : WStep w w')
    (hinv : ExclusiveOwnership w) : ExclusiveOwnership w' := by
  cases hstep with
  | construct i hfree =>
    intro a b sa sb hab ha hb hval
    rw [Function.update_apply] at ha hb
    by_cases hai : a = i
    · rw [if_pos hai] at ha
      cases ha
      exact absurd rfl hval
    · rw [if_neg hai] at ha
      by_cases hbi : b = i
      · rw [if_pos hbi] at hb
        cases hb
        intro hcon
        exact hval hcon
      · rw [if_neg hbi] at hb
        exact hinv a b sa sb hab ha hb hval
  | openOk i s h hs hclosed hvalid hfresh =>
    have hsock : (s.openSocket (some h)).sock = { s with _sock := h } :=
      openSocket_some_sock s h hclosed
    intro a b sa sb hab ha hb hval
    rw [Function.update_apply] at ha hb
    by_cases hai : a = i
    · rw [if_pos hai] at ha
      cases ha
      rw [hsock]
      by_cases hbi : b = i
      · exact absurd (hai.trans hbi.symm) hab
      · rw [if_neg hbi] at hb
        exact fun hcon => hfresh b sb hb hcon.symm
    · rw [if_neg hai] at ha
      by_cases hbi : b = i
      · rw [if_pos hbi] at hb
        cases hb
        rw [hsock]
        exact fun hcon => hfresh a sa ha hcon
      · rw [if_neg hbi] at hb
        exact hinv a b sa sb hab ha hb hval
  | openFail i s hs =>
    have hsock : (s.openSocket none).sock = s := openSocket_none_sock s
    intro a b sa sb hab ha hb hval
    rw [Function.update_apply] at ha hb
    by_cases hai : a = i
    · rw [if_pos hai] at ha
      cases ha
      rw [hsock] at hval ⊢
      by_cases hbi : b = i
      · exact absurd (hai.trans hbi.symm) hab
      · rw [if_neg hbi] at hb
        exact hinv i b s sb (hai ▸ hab) hs hb hval
    · rw [if_neg hai] at ha
      by_cases hbi : b = i
      · rw [if_pos hbi] at hb
        cases hb
        rw [hsock]
        exact hinv a i sa s (hbi ▸ hab) ha hs hval
      · rw [if_neg hbi] at hb
        exact hinv a b sa sb hab ha hb hval
  | declOpened i s h hs hclosed hvalid hfresh =>
    have hsock : (s.declareOpened h).sock = { s with _sock := h } := rfl
    intro a b sa sb hab ha hb hval
    rw [Function.update_apply] at ha hb
    by_cases hai : a = i
    · rw [if_pos hai] at ha
      cases ha
      rw [hsock]
      by_cases hbi : b = i
      · exact absurd (hai.trans hbi.symm) hab
      · rw [if_neg hbi] at hb
        exact fun hcon => hfresh b sb hb hcon.symm
    · rw [if_neg hai] at ha
      by_cases hbi : b = i
      · rw [if_pos hbi] at hb
        cases hb
        rw [hsock]
        exact fun hcon => hfresh a sa ha hcon
      · rw [if_neg hbi] at hb
        exact hinv a b sa sb hab ha hb hval
  | closeStep i s hs =>
    intro a b sa sb hab ha hb hval
    rw [Function.update_apply] at ha hb
    by_cases hai : a = i
    · rw [if_pos hai] at ha
      cases ha
      exact absurd (close_sock_invalid s) hval
    · rw [if_neg hai] at ha
      by_cases hbi : b = i
      · rw [if_pos hbi] at hb
        cases hb
        rw [close_sock_invalid s]
        exact hval
      · rw [if_neg hbi] at hb
        exact hinv a b sa sb hab ha hb hval
  | reuseStep i s b0 hs =>
    intro a b sa sb hab ha hb hval
    rw [Function.update_apply] at ha hb
    by_cases hai : a = i
    · rw [if_pos hai] at ha
      cases ha
      rw [reusePort_sock_handle s b0] at hval ⊢
      by_cases hbi : b = i
      · exact absurd (hai.trans hbi.symm) hab
      · rw [if_neg hbi] at hb
        exact hinv i b s sb (hai ▸ hab) hs hb hval
    · rw [if_neg hai] at ha
      by_cases hbi : b = i
      · rw [if_pos hbi] at hb
        cases hb
        rw [reusePort_sock_handle s b0]
        exact hinv a i sa s (hbi ▸ hab) ha hs hval
      · rw [if_neg hbi] at hb
        exact hinv a b sa sb hab ha hb hval
  | bindStep i s p ob e hs =>
    intro a b sa sb hab ha hb hval
    rw [Function.update_apply] at ha hb
    by_cases hai : a = i
    · rw [if_pos hai] at ha
      cases ha
      rw [bind_sock_handle s p ob e] at hval ⊢
      by_cases hbi : b = i
      · exact absurd (hai.trans hbi.symm) hab
      · rw [if_neg hbi] at hb
        exact hinv i b s sb (hai ▸ hab) hs hb hval
    · rw [if_neg hai] at ha
      by_cases hbi : b = i
      · rw [if_pos hbi] at hb
        cases hb
        rw [bind_sock_handle s p ob e]
        exact hinv a i sa s (hbi ▸ hab) ha hs hval
      · rw [if_neg hbi] at hb
        exact hinv a b sa sb hab ha hb hval
  | destroy i s hs =>
    intro a b sa sb hab ha hb hval
    rw [Function.update_apply] at ha hb
    by_cases hai : a = i
    · rw [if_pos hai] at ha
      exact absurd ha (by simp)
    · rw [if_neg hai] at ha
      by_cases hbi : b = i
      · rw [if_pos hbi] at hb
        exact absurd hb (by simp)
      · rw [if_neg hbi] at hb
        exact hinv a b sa sb hab ha hb hval

/-- Claim C8: invariant I2 (exclusive ownership) holds in every world
reachable by any sequence of operations from the empty world: at most
one live socket instance owns a given valid native handle value, there
being no copy-construction or copy-assignment step that could duplicate
a raw handle into another instance. -/
theorem claim_C8_exclusive_ownership (w : World) (hw : World.Reachable w) :
    ExclusiveOwnership w := by
  induction hw with
  | refl =>
    intro a b sa sb hab ha hb hval
    exact absurd ha (by simp [World.init])
  | tail hsteps hstep ih =>
    exact exclusive_ownership_step hstep ih

/-- Witness for C8: the world holding one closed instance and one
instance opened with the fresh OS handle 5 is reachable, and exclusive
ownership holds in it. -/
theorem claim_C8_witness :
    ExclusiveOwnership
      (Function.update
        (Function.update
          (Function.update World.init 0 (some TCPSocket.new))
          1 (some TCPSocket.new))
        1 (some ((TCPSocket.new.openSocket (some 5)).sock))) := by
  apply claim_C8_exclusive_ownership
  have s1 : WStep World.init (Function.update World.init 0 (some TCPSocket.new)) :=
    WStep.construct _ 0 rfl
  have s2 : WStep (Function.update World.init 0 (some TCPSocket.new))
      (Function.update (Function.update World.init 0 (some TCPSocket.new)) 1
        (some TCPSocket.new)) :=
    WStep.construct _ 1 (by simp [Function.update_apply, World.init])
  have s3 : WStep
      (Function.update (Function.update World.init 0 (some TCPSocket.new)) 1
        (some TCPSocket.new))
      (Function.update
        (Function.update (Function.update World.init 0 (some TCPSocket.new)) 1
          (some TCPSocket.new))
        1 (some ((TCPSocket.new.openSocket (some 5)).sock))) := by
    refine WStep.openOk _ 1 TCPSocket.new 5 ?_ (by decide) (by decide) ?_
    · rw [Function.update_apply, if_pos rfl]
    · intro j sj hj
      rw [Function.update_apply] at hj
      by_cases hj1 : j = 1
      · rw [if_pos hj1] at hj
        cases hj
        decide
      · rw [if_neg hj1, Function.update_apply] at hj
        by_cases hj0 : j = 0
        · rw [if_pos hj0] at hj
          cases hj
          decide
        · rw [if_neg hj0] at hj
          exact absurd hj (by simp [World.init])
  exact Relation.ReflTransGen.tail
    (Relation.ReflTransGen.tail (Relation.ReflTransGen.single s1) s2) s3

/-- Claim C9: the reporting sink filters by severity threshold:
`Report::log(s, m)` hands the message to the output `writeLog` exactly
when `s` is at or below `_max_severity` and otherwise leaves the sink
unchanged, and the formatted-log overloads behave exactly like `log`
applied to the formatted message. -/
theorem claim_C9_log_threshold (rpt : Report) (s : Int) (m : UString)
    (fmt : String) (args : List Int) :
    ((rpt.log s m).written = rpt.written ++ [(s, m)] ↔ s ≤ rpt._max_severity) ∧
    (¬ s ≤ rpt._max_severity → rpt.log s m = rpt) ∧
    rpt.logFormat s fmt args = rpt.log s (UString.format fmt args) := by
  refine ⟨⟨?_, ?_⟩, ?_, ?_⟩
  · intro hw
    by_contra hns
    rw [Report.log, if_neg hns] at hw
    have hlen := congrArg List.length hw
    simp at hlen
  · intro hle
    rw [Report.log, if_pos hle]
    rfl
  · intro hns
    rw [Report.log, if_neg hns]
  · by_cases hle : s ≤ rpt._max_severity
    · rw [Report.logFormat, if_pos hle]
    · rw [Report.logFormat, if_neg hle, Report.log, if_neg hle]

/-- Witness for C9 at threshold `Info`, one message at `Error` (passes)
with the iff instantiated, plus the formatted overload equation. -/
theorem claim_C9_witness :
    ((({ _max_severity := Severity.Info, written := [] } : Report).log Severity.Error
        (UString.lit "boom")).written =
      ([] : List (Int × UString)) ++ [(Severity.Error, UString.lit "boom")] ↔
      Severity.Error ≤ Severity.Info) ∧
    (¬ Severity.Error ≤ Severity.Info →
      ({ _max_severity := Severity.Info, written := [] } : Report).log Severity.Error
        (UString.lit "boom") = { _max_severity := Severity.Info, written := [] }) ∧
    ({ _max_severity := Severity.Info, written := [] } : Report).logFormat Severity.Error
        "fmt" [1] =
      ({ _max_severity := Severity.Info, written := [] } : Report).log Severity.Error
        (UString.format "fmt" [1]) :=
  claim_C9_log_threshold { _max_severity := Severity.Info, written := [] }
    Severity.Error (UString.lit "boom") "fmt" [1]

/-- The threshold left by `setMaxSeverity` is the requested level: the
debug-confirmation message it may log never touches `_max_severity`. -/
theorem setMaxSeverity_threshold (rpt : Report) (level : Int) :
    (rpt.setMaxSeverity level)._max_severity = level := by
  rw [Report.setMaxSeverity]
  by_cases hd : level ≥ Severity.Debug
  · rw [if_pos hd, Report.logFormat]
    by_cases hl : level ≤ level
    · rw [if_pos hl, Report.log, if_pos hl]
      rfl
    · rw [if_neg hl]
  · rw [if_neg hd]

/-- Claim C10: `Report::raiseMaxSeverity` never lowers the threshold:
after `raiseMaxSeverity(l)` the threshold equals `max(t, l)`; the call
is a complete no-op when `l ≤ t`; and the operation is idempotent. -/
theorem claim_C10_raiseMaxSeverity (rpt : Report) (l : Int) :
    (rpt.raiseMaxSeverity l)._max_severity = max rpt._max_severity l ∧
    (l ≤ rpt._max_severity → rpt.raiseMaxSeverity l = rpt) ∧
    (rpt.raiseMaxSeverity l).raiseMaxSeverity l = rpt.raiseMaxSeverity l := by
    refine ⟨?_, ?_, ?_⟩
    · rw [Report.raiseMaxSeverity]
      by_cases hlt : rpt._max_severity < l
      · rw [if_pos hlt, setMaxSeverity_threshold]
        omega
      · rw [if_neg hlt]
        omega
    · intro hle
      rw [Report.raiseMaxSeverity, if_neg (not_lt.mpr hle)]
    · by_cases hlt : rpt._max_severity < l
      · have h1 : rpt.raiseMaxSeverity l = rpt.setMaxSeverity l := by
          rw [Report.raiseMaxSeverity, if_pos hlt]
        rw [h1, Report.raiseMaxSeverity, setMaxSeverity_threshold, if_neg (lt_irrefl l)]
      · have h1 : rpt.raiseMaxSeverity l = rpt := by
          rw [Report.raiseMaxSeverity, if_neg hlt]
        rw [h1, h1]

/-- Witness for C10 at threshold `Info` raised to `Debug` and at
threshold `Debug` "raised" to `Info` (no-op). -/
theorem claim_C10_witness :
    (({ _max_severity := Severity.Debug, written := [] } : Report).raiseMaxSeverity
        Severity.Info)._max_severity = max Severity.Debug Severity.Info ∧
    (Severity.Info ≤ Severity.Debug →
      ({ _max_severity := Severity.Debug, written := [] } : Report).raiseMaxSeverity
        Severity.Info = { _max_severity := Severity.Debug, written := [] }) ∧
    (({ _max_severity := Severity.Debug, written := [] } : Report).raiseMaxSeverity
        Severity.Info).raiseMaxSeverity Severity.Info =
      ({ _max_severity := Severity.Debug, written := [] } : Report).raiseMaxSeverity
        Severity.Info :=
  claim_C10_raiseMaxSeverity { _max_severity := Severity.Debug, written := [] }
    Severity.Info

end TsDuck
